import Mathlib

/-!
Verification development for the `cf.py` CLI tool (terminal-image):
a shallow embedding of its configuration check, argument parsing,
generate → decode → upload → preview → record pipeline, and its
JSON history store, together with theorems settling the specification
claims about them.

External collaborators (the `requests` HTTP client, `base64.b64decode`,
PIL resizing, `datetime.now`, the terminal renderers probed via
`os.system`) are modelled as inputs supplied by a `RunWorld` value:
the embedding fixes only what the script itself does with their results.
-/

/-- HistoryEntry as written by Step 6 of cf.py: the JSON object
`{date, prompt, url, expiry}` appended to `cf_history.json`. -/
structure HistoryEntry where
  date : String
  prompt : String
  url : String
  expiry : String
deriving Repr, DecidableEq

/-- Wall-clock time as delivered by `datetime.now()`; the script only
ever formats it with `strftime("%Y-%m-%d %H:%M:%S")`. -/
structure DateTime where
  year : Nat
  month : Nat
  day : Nat
  hour : Nat
  minute : Nat
  second : Nat
deriving Repr, DecidableEq

/-- Zero-pad a number to two digits, as `%m %d %H %M %S` do. -/
def pad2 (n : Nat) : String :=
  if n < 10 then "0" ++ toString n else toString n

/-- Model of `datetime.now().strftime("%Y-%m-%d %H:%M:%S")` (cf.py line 179)
applied to a given `DateTime`. -/
def strftimeYmdHMS (d : DateTime) : String :=
  toString d.year ++ "-" ++ pad2 d.month ++ "-" ++ pad2 d.day ++ " " ++
    pad2 d.hour ++ ":" ++ pad2 d.minute ++ ":" ++ pad2 d.second

/-- The three credentials read from the environment at startup
(cf.py lines 18-20); `none` models an absent variable, matching
`os.environ.get` returning `None`. -/
structure Env where
  openai_api_key : Option String
  cloudflare_api_token : Option String
  cloudflare_account_id : Option String
deriving Repr, DecidableEq

/-- Python truthiness of an `os.environ.get` result: `None` and the
empty string are falsy, every other string is truthy. -/
def truthy : Option String → Bool
  | none => false
  | some s => s ≠ ""

/-- The `all([openai_api_key, cloudflare_api_token, cloudflare_account_id])`
check of cf.py line 27. -/
def credsOk (env : Env) : Bool :=
  truthy env.openai_api_key && truthy env.cloudflare_api_token &&
    truthy env.cloudflare_account_id

/-- The option-removal loop of cf.py lines 64-73, over the user tokens
`sys.argv[1:]`.  Faithfully, for each token:
`--wide` is skipped; `--expire` is skipped, and when the next token exists
and is `24h` or `30d` it is stored into `expire_time` (but the loop does
NOT skip that next token: it is appended on the following iteration);
any other token is appended to `args`.  Returns the remaining tokens and
the final `expire_time`. -/
def removeOptions : List String → Option String → List String × Option String
  | [], exp => ([], exp)
  | t :: rest, exp =>
    if t = "--wide" then removeOptions rest exp
    else if t = "--expire" then
      match rest with
      | [] => removeOptions rest exp
      | next :: _ =>
        if next = "24h" || next = "30d" then removeOptions rest (some next)
        else removeOptions rest exp
    else
      let r := removeOptions rest exp
      (t :: r.1, r.2)

/-- The structured result of argument handling: `is_wide` from
`"--wide" in sys.argv` (line 61), `expire_time` and the remaining
tokens from the removal loop (initial `expire_time = None`, line 62). -/
structure ParsedRequest where
  is_wide : Bool
  expire_time : Option String
  args : List String
deriving Repr, DecidableEq

/-- Argument handling of cf.py lines 61-73 on the token list
`sys.argv[1:]`. -/
def parseArgs (argv : List String) : ParsedRequest :=
  { is_wide := argv.contains "--wide"
  , expire_time := (removeOptions argv none).2
  , args := (removeOptions argv none).1 }

/-- Prompt assembly `description = " ".join(args)` (cf.py line 81). -/
def promptOf (p : ParsedRequest) : String :=
  String.intercalate " " p.args

/-- Size selection `image_size = "1792x1024" if is_wide else "1024x1024"`
(cf.py line 84). -/
def imageSize (p : ParsedRequest) : String :=
  if p.is_wide then "1792x1024" else "1024x1024"

/-- Observable side effects of one run, in order: the two API calls, the
preview download, and the rewrite of the history file. -/
inductive Event where
  | netGenerate
  | netUpload
  | netPreviewGet
  | writeHistory
deriving Repr, DecidableEq

/-- Failure modes inside the Step 5 preview block.  `reqExc` is a
`requests.exceptions.RequestException` (raised by `requests.get` or
`raise_for_status`); `otherExc` is any other exception (temp-file I/O,
`Image.open`, `resize`, `save`).  The renderer probes use `os.system`,
which returns an exit status and never raises. -/
inductive PrevErr where
  | reqExc (msg : String)
  | otherExc (msg : String)
deriving Repr, DecidableEq

/-- The environment a run executes against, over a type `β` of byte
blobs: outcomes of the OpenAI call (the `data[*].b64_json` list on
success), the `base64.b64decode` function, the Cloudflare upload keyed by
the uploaded bytes (the first `result.variants[0]` URL on success), the
preview `requests.get`, the PIL open/resize/save step, and the current
wall-clock time. -/
structure RunWorld (β : Type) where
  genResp : Except String (List String)
  b64decode : String → β
  uploadResp : β → Except String String
  previewDownload : String → Except String β
  resize : β → Except String Unit
  now : DateTime

/-- What one invocation of the script leaves behind: the process exit
code, the parsed contents of the history file (`none` = file absent),
the network/file events in order, and the byte blobs handed to the
Cloudflare upload call. -/
structure RunOutcome (β : Type) where
  exitCode : Nat
  hist : Option (List HistoryEntry)
  events : List Event
  uploaded : List β
deriving Repr

/-- The Step 5 preview block body (cf.py lines 143-170): download the
hosted image, then write/open/resize/save it.  A download failure raises
`reqExc`; a resize-stage failure raises `otherExc`; renderer probing
cannot raise. -/
def previewStep {β : Type} (w : RunWorld β) (url : String) : Except PrevErr Unit :=
  match w.previewDownload url with
  | Except.error e => Except.error (PrevErr.reqExc e)
  | Except.ok content =>
    match w.resize content with
    | Except.error e => Except.error (PrevErr.otherExc e)
    | Except.ok _ => Except.ok ()

/-- History-store append (cf.py lines 188-197): read the existing JSON
array (absent file → `[]`), append the entry, write the whole array
back.  After a write the file always holds a JSON array. -/
def appendHistory (h : Option (List HistoryEntry)) (e : HistoryEntry) :
    Option (List HistoryEntry) :=
  some (h.getD [] ++ [e])

/-- History-store read, as used by the `--history` branch (cf.py lines
35-46): the stored array, or nothing when the file is absent (the
branch then prints the no-history notice). -/
def listHistory (h : Option (List HistoryEntry)) : List HistoryEntry :=
  h.getD []

/-- Step 6 of cf.py (lines 176-197), reached after a successful upload
whose URL is `image_url` and a non-fatal preview: build the history
entry with `final_expiry = expire_time or "None"` and append it.  The
run then falls off the `try` block and exits with status 0. -/
def recordOutcome {β : Type} (w : RunWorld β) (argv : List String)
    (hist0 : Option (List HistoryEntry)) (image_url : String)
    (image_data : β) : RunOutcome β :=
  let p := parseArgs argv
  let final_expiry := (p.expire_time).getD "None"
  let entry : HistoryEntry :=
    { date := strftimeYmdHMS w.now
    , prompt := promptOf p
    , url := image_url
    , expiry := final_expiry }
  { exitCode := 0
  , hist := appendHistory hist0 entry
  , events := [Event.netGenerate, Event.netUpload, Event.netPreviewGet,
               Event.writeHistory]
  , uploaded := [image_data] }

/-- One invocation of cf.py on user tokens `argv` (= `sys.argv[1:]`),
against environment `env`, external world `w`, and history-file state
`hist0`.  Mirrors the script top to bottom: credential check (exit 1),
`--history` branch (exit 0), `--help` branch (exit 0), option removal,
empty-description check (exit 1), then the `try` block: generate,
decode `data[0]`, upload, preview (only `RequestException` caught),
record history; any uncaught exception hits the top-level handler and
exits 1. -/
def cfMain {β : Type} (env : Env) (argv : List String) (w : RunWorld β)
    (hist0 : Option (List HistoryEntry)) : RunOutcome β :=
  if credsOk env = false then
    { exitCode := 1, hist := hist0, events := [], uploaded := [] }
  else if argv.contains "--history" then
    { exitCode := 0, hist := hist0, events := [], uploaded := [] }
  else if argv.contains "--help" then
    { exitCode := 0, hist := hist0, events := [], uploaded := [] }
  else
    let p := parseArgs argv
    if p.args = [] then
      { exitCode := 1, hist := hist0, events := [], uploaded := [] }
    else
      match w.genResp with
      | Except.error _ =>
        { exitCode := 1, hist := hist0, events := [Event.netGenerate]
        , uploaded := [] }
      | Except.ok data =>
        match data with
        | [] =>
          { exitCode := 1, hist := hist0, events := [Event.netGenerate]
          , uploaded := [] }
        | b64 :: _ =>
          let image_data := w.b64decode b64
          match w.uploadResp image_data with
          | Except.error _ =>
            { exitCode := 1, hist := hist0
            , events := [Event.netGenerate, Event.netUpload]
            , uploaded := [image_data] }
          | Except.ok image_url =>
            match previewStep w image_url with
            | Except.error (PrevErr.otherExc _) =>
              { exitCode := 1, hist := hist0
              , events := [Event.netGenerate, Event.netUpload,
                           Event.netPreviewGet]
              , uploaded := [image_data] }
            | Except.error (PrevErr.reqExc _) =>
              recordOutcome w argv hist0 image_url image_data
            | Except.ok _ =>
              recordOutcome w argv hist0 image_url image_data

/-- An environment with all three credentials present. -/
def goodEnv : Env :=
  { openai_api_key := some "sk-test"
  , cloudflare_api_token := some "cf-token"
  , cloudflare_account_id := some "cf-acct" }

/-- An environment missing the generation API key. -/
def badEnv : Env :=
  { openai_api_key := none
  , cloudflare_api_token := some "cf-token"
  , cloudflare_account_id := some "cf-acct" }

/-- A world in which every external call succeeds.  Byte blobs are
represented as strings; `b64decode` is modelled by an injective tagging
function, which is all the pipeline observes about it. -/
def okWorld : RunWorld String :=
  { genResp := Except.ok ["QUJD"]
  , b64decode := fun s => "dec:" ++ s
  , uploadResp := fun _ => Except.ok "https://imagedelivery.net/acct/id/public"
  , previewDownload := fun _ => Except.ok "pngbytes"
  , resize := fun _ => Except.ok ()
  , now := { year := 2026, month := 10, day := 12, hour := 3, minute := 4,
             second := 5 } }

/-- Like `okWorld`, but the Cloudflare upload returns a non-success
status. -/
def uploadFailWorld : RunWorld String :=
  { okWorld with uploadResp := fun _ => Except.error "400 Bad Request" }

/-- Like `okWorld`, but the preview download raises a
`RequestException`. -/
def downloadFailWorld : RunWorld String :=
  { okWorld with previewDownload := fun _ => Except.error "404 Not Found" }

/-- Like `okWorld`, but the preview resize stage raises (e.g. PIL
cannot identify the downloaded file). -/
def resizeFailWorld : RunWorld String :=
  { okWorld with resize := fun _ => Except.error "cannot identify image file" }

/-- Like `okWorld`, but the generation response carries two images. -/
def twoImagesWorld : RunWorld String :=
  { okWorld with genResp := Except.ok ["AAAA", "BBBB"] }

/-- Folding `appendHistory` from an existing array appends the new
entries on the right, in order. -/
theorem foldl_appendHistory (es : List HistoryEntry) (acc : List HistoryEntry) :
    List.foldl appendHistory (some acc) es = some (acc ++ es) := by
  induction es generalizing acc with
  | nil => simp
  | cons e es ih => simp [appendHistory, ih]

/-- The removal loop only ever stores the literals `24h` and `30d` into
`expire_time`; starting from `exp`, the final value is `exp` or one of
the two literals. -/
theorem removeOptions_expire_cases (argv : List String) (exp : Option String) :
    (removeOptions argv exp).2 = exp ∨ (removeOptions argv exp).2 = some "24h" ∨
      (removeOptions argv exp).2 = some "30d" := by
  induction argv generalizing exp with
  | nil => simp [removeOptions]
  | cons t rest ih =>
    by_cases hw : t = "--wide"
    · simpa [removeOptions, hw] using ih exp
    · by_cases he : t = "--expire"
      · cases rest with
        | nil => simp [removeOptions, hw, he]
        | cons n rs =>
          by_cases h24 : n = "24h"
          · have := ih (some "24h")
            simp [removeOptions, hw, he, h24] at this ⊢
            tauto
          · by_cases h30 : n = "30d"
            · have := ih (some "30d")
              simp [removeOptions, hw, he, h24, h30] at this ⊢
              tauto
            · simpa [removeOptions, hw, he, h24, h30] using ih exp
      · simpa [removeOptions, hw, he] using ih exp

/-- Unfolding: a leading `--wide` is skipped. -/
theorem removeOptions_wide (rest : List String) (e : Option String) :
    removeOptions ("--wide" :: rest) e = removeOptions rest e := by
  simp [removeOptions]

/-- Unfolding: a final `--expire` is skipped without touching
`expire_time`. -/
theorem removeOptions_expire_nil (e : Option String) :
    removeOptions ["--expire"] e = ([], e) := by
  simp [removeOptions]

/-- Unfolding: `--expire` followed by the literal `24h` stores the
literal but does not consume it. -/
theorem removeOptions_expire_24h (rs : List String) (e : Option String) :
    removeOptions ("--expire" :: "24h" :: rs) e =
      removeOptions ("24h" :: rs) (some "24h") := by
  simp [removeOptions]

/-- Unfolding: `--expire` followed by the literal `30d` stores the
literal but does not consume it. -/
theorem removeOptions_expire_30d (rs : List String) (e : Option String) :
    removeOptions ("--expire" :: "30d" :: rs) e =
      removeOptions ("30d" :: rs) (some "30d") := by
  simp [removeOptions]

/-- Unfolding: `--expire` followed by a non-literal token is skipped and
the token is left for the next iteration. -/
theorem removeOptions_expire_other (n : String) (rs : List String)
    (e : Option String) (h24 : n ≠ "24h") (h30 : n ≠ "30d") :
    removeOptions ("--expire" :: n :: rs) e = removeOptions (n :: rs) e := by
  simp [removeOptions, h24, h30]

/-- Unfolding: an ordinary token is appended to the remaining
arguments. -/
theorem removeOptions_other (t : String) (rest : List String)
    (e : Option String) (hw : t ≠ "--wide") (he : t ≠ "--expire") :
    removeOptions (t :: rest) e =
      (t :: (removeOptions rest e).1, (removeOptions rest e).2) := by
  simp [removeOptions, hw, he]

/-- Appending the trailing `--expire` never changes the result of the
removal loop: the guard `i + 2 < len(sys.argv)` prevents any read past
the end, the token itself is skipped, and `expire_time` is left as is. -/
theorem removeOptions_append_expire (ys : List String) (e : Option String) :
    removeOptions (ys ++ ["--expire"]) e = removeOptions ys e := by
  induction ys generalizing e with
  | nil =>
    show removeOptions ["--expire"] e = removeOptions [] e
    rw [removeOptions_expire_nil]
    rfl
  | cons t rest ih =>
    by_cases hw : t = "--wide"
    · subst hw
      rw [List.cons_append, removeOptions_wide, removeOptions_wide, ih]
    · by_cases he : t = "--expire"
      · subst he
        cases rest with
        | nil =>
          show removeOptions ["--expire", "--expire"] e =
            removeOptions ["--expire"] e
          rw [removeOptions_expire_other "--expire" [] e (by decide) (by decide),
            removeOptions_expire_nil]
        | cons n rs =>
          rw [List.cons_append, List.cons_append]
          by_cases h24 : n = "24h"
          · subst h24
            rw [removeOptions_expire_24h, removeOptions_expire_24h]
            exact ih (some "24h")
          · by_cases h30 : n = "30d"
            · subst h30
              rw [removeOptions_expire_30d, removeOptions_expire_30d]
              exact ih (some "30d")
            · rw [removeOptions_expire_other n (rs ++ ["--expire"]) e h24 h30,
                removeOptions_expire_other n rs e h24 h30]
              exact ih e
      · rw [List.cons_append,
          removeOptions_other t (rest ++ ["--expire"]) e hw he,
          removeOptions_other t rest e hw he, ih]

/-- C1: the spec example `--wide --expire 30d sunset over dunes` is
claimed to yield the prompt "sunset over dunes"; the removal loop sets
`expire_time` to `30d` but never skips the literal token, so the
literal stays in `args` and the prompt is "30d sunset over dunes". -/
theorem c1_expire_literal_left_in_prompt :
    promptOf (parseArgs ["--wide", "--expire", "30d", "sunset", "over", "dunes"]) =
        "30d sunset over dunes" ∧
      (parseArgs ["--wide", "--expire", "30d", "sunset", "over", "dunes"]).expire_time =
        some "30d" ∧
      promptOf (parseArgs ["--wide", "--expire", "30d", "sunset", "over", "dunes"]) ≠
        "sunset over dunes" := by
  refine ⟨rfl, rfl, ?_⟩
  decide

/-- C9: appending N entries one at a time to an absent history store and
then listing it returns exactly those N entries, in insertion order,
with identical field values. -/
theorem c9_history_roundtrip (es : List HistoryEntry) :
    listHistory (List.foldl appendHistory none es) = es := by
  cases es with
  | nil => rfl
  | cons e tl => simp [listHistory, appendHistory, foldl_appendHistory]

/-- C10: a trailing `--expire` with nothing after it is parsed without
error: the bounds guard stops any read past the end of the argument
list, the token is removed, `expire_time` is untouched, and the parse
result is as if the trailing token were absent. -/
theorem c10_trailing_expire_safe (ys : List String) (e : Option String) :
    removeOptions (ys ++ ["--expire"]) e = removeOptions ys e ∧
      parseArgs (ys ++ ["--expire"]) = parseArgs ys := by
  refine ⟨removeOptions_append_expire ys e, ?_⟩
  simp [parseArgs, removeOptions_append_expire]

/-- C5: when any of the three environment credentials is absent, the
run exits with status 1 immediately: no network event occurs, nothing
is uploaded, and the history file is untouched. -/
theorem c5_missing_credentials {β : Type} (env : Env) (argv : List String)
    (w : RunWorld β) (hist0 : Option (List HistoryEntry))
    (h : env.openai_api_key = none ∨ env.cloudflare_api_token = none ∨
      env.cloudflare_account_id = none) :
    cfMain env argv w hist0 =
      { exitCode := 1, hist := hist0, events := [], uploaded := [] } := by
  have hc : credsOk env = false := by
    rcases h with h | h | h <;> simp [credsOk, h, truthy]
  simp [cfMain, hc]

/-- Witness for C5: with the generation API key unset, the run exits 1
with no network events. -/
theorem c5_missing_credentials_witness :
    cfMain badEnv ["a", "cat"] okWorld none =
      { exitCode := 1, hist := none, events := [], uploaded := [] } :=
  c5_missing_credentials badEnv ["a", "cat"] okWorld none (Or.inl rfl)

/-- C6: with all credentials present, neither `--history` nor `--help`
given, and no tokens left after option removal, the run exits with
status 1 before any network event. -/
theorem c6_empty_prompt_usage_error {β : Type} (env : Env) (argv : List String)
    (w : RunWorld β) (hist0 : Option (List HistoryEntry))
    (hc : credsOk env = true)
    (hh : "--history" ∉ argv)
    (hp : "--help" ∉ argv)
    (ha : (parseArgs argv).args = []) :
    cfMain env argv w hist0 =
      { exitCode := 1, hist := hist0, events := [], uploaded := [] } := by
  simp [cfMain, hc, hh, hp, ha]

/-- Witness for C6: the argument list `--wide` leaves no prompt tokens
and the run exits 1 with no network events. -/
theorem c6_empty_prompt_usage_error_witness :
    cfMain goodEnv ["--wide"] okWorld none =
      { exitCode := 1, hist := none, events := [], uploaded := [] } :=
  c6_empty_prompt_usage_error goodEnv ["--wide"] okWorld none (by decide)
    (by decide) (by decide) (by decide)

/-- C4: when the Cloudflare upload fails, the run exits with status 1
and no history entry is appended: the history file is exactly what it
was, and only the two API calls happened. -/
theorem c4_upload_failure_no_record {β : Type} (env : Env) (argv : List String)
    (w : RunWorld β) (hist0 : Option (List HistoryEntry)) (b64 : String)
    (rest : List String) (emsg : String)
    (hc : credsOk env = true)
    (hh : "--history" ∉ argv)
    (hp : "--help" ∉ argv)
    (ha : (parseArgs argv).args ≠ [])
    (hg : w.genResp = Except.ok (b64 :: rest))
    (hu : w.uploadResp (w.b64decode b64) = Except.error emsg) :
    cfMain env argv w hist0 =
      { exitCode := 1, hist := hist0
      , events := [Event.netGenerate, Event.netUpload]
      , uploaded := [w.b64decode b64] } := by
  simp [cfMain, hc, hh, hp, ha, hg, hu]

/-- Witness for C4: a concrete run whose upload returns a 400 exits 1
and leaves the absent history file absent. -/
theorem c4_upload_failure_no_record_witness :
    cfMain goodEnv ["a", "cat"] uploadFailWorld none =
      { exitCode := 1, hist := none
      , events := [Event.netGenerate, Event.netUpload]
      , uploaded := ["dec:QUJD"] } := by
  have h := c4_upload_failure_no_record goodEnv ["a", "cat"] uploadFailWorld none
    "QUJD" [] "400 Bad Request" (by decide) (by decide) (by decide) (by decide)
    rfl rfl
  exact h

/-- Counterexample to C8 as stated: with the generation API key absent,
an invocation whose arguments contain `--history` exits with status 1,
not 0 — the credential check of cf.py line 27 precedes the `--history`
branch of line 35. -/
theorem c8_history_counterexample :
    (cfMain badEnv ["--history"] okWorld none).exitCode ≠ 0 := by
  decide

/-- C8 (amended): with all three credentials present, any invocation
containing `--history` exits 0 touching nothing, regardless of the
other arguments; any invocation containing `--help` but not
`--history` likewise exits 0; the `--history` conjunct holds whether
or not `--help` is present, which is the checked order (history
first). -/
theorem c8_history_help_exit_zero {β : Type} (env : Env) (argv : List String)
    (w : RunWorld β) (hist0 : Option (List HistoryEntry))
    (hc : credsOk env = true) :
    ("--history" ∈ argv →
      cfMain env argv w hist0 =
        { exitCode := 0, hist := hist0, events := [], uploaded := [] }) ∧
    ("--help" ∈ argv → "--history" ∉ argv →
      cfMain env argv w hist0 =
        { exitCode := 0, hist := hist0, events := [], uploaded := [] }) := by
  constructor
  · intro hh
    simp [cfMain, hc, hh]
  · intro hp hh
    simp [cfMain, hc, hh, hp]

/-- Witness for C8 (amended): `--history --help junk` with credentials
present exits 0 without touching anything. -/
theorem c8_history_help_exit_zero_witness :
    cfMain goodEnv ["--history", "--help", "junk"] okWorld none =
      { exitCode := 0, hist := none, events := [], uploaded := [] } :=
  (c8_history_help_exit_zero goodEnv ["--history", "--help", "junk"] okWorld
    none (by decide)).1 (by decide)

/-- Counterexample to C3 as stated: a failure in the resize part of the
preview stage (here PIL cannot identify the downloaded file) is NOT
caught by the preview handler — cf.py line 172 catches only
`requests.exceptions.RequestException` — so the run aborts with exit
status 1 and appends no history entry. -/
theorem c3_resize_failure_aborts :
    (cfMain goodEnv ["a", "cat"] resizeFailWorld none).exitCode = 1 ∧
      (cfMain goodEnv ["a", "cat"] resizeFailWorld none).hist = none := by
  exact ⟨rfl, rfl⟩

/-- C3 (amended): a failure while downloading the hosted image for the
preview (a `RequestException`) is caught and the run still appends its
history entry and exits 0. -/
theorem c3_preview_download_failure_nonfatal {β : Type} (env : Env)
    (argv : List String) (w : RunWorld β) (hist0 : Option (List HistoryEntry))
    (b64 : String) (rest : List String) (url emsg : String)
    (hc : credsOk env = true)
    (hh : "--history" ∉ argv)
    (hp : "--help" ∉ argv)
    (ha : (parseArgs argv).args ≠ [])
    (hg : w.genResp = Except.ok (b64 :: rest))
    (hu : w.uploadResp (w.b64decode b64) = Except.ok url)
    (hd : w.previewDownload url = Except.error emsg) :
    (cfMain env argv w hist0).exitCode = 0 ∧
      (cfMain env argv w hist0).hist =
        appendHistory hist0
          { date := strftimeYmdHMS w.now
          , prompt := promptOf (parseArgs argv)
          , url := url
          , expiry := ((parseArgs argv).expire_time).getD "None" } := by
  have hrec : cfMain env argv w hist0 =
      recordOutcome w argv hist0 url (w.b64decode b64) := by
    simp [cfMain, hc, hh, hp, ha, hg, hu, previewStep, hd]
  rw [hrec]
  exact ⟨rfl, rfl⟩

/-- Witness for C3 (amended): a concrete run whose preview download
404s still exits 0 and appends its entry. -/
theorem c3_preview_download_failure_nonfatal_witness :
    (cfMain goodEnv ["a", "cat"] downloadFailWorld none).exitCode = 0 ∧
      (cfMain goodEnv ["a", "cat"] downloadFailWorld none).hist =
        appendHistory none
          { date := strftimeYmdHMS downloadFailWorld.now
          , prompt := promptOf (parseArgs ["a", "cat"])
          , url := "https://imagedelivery.net/acct/id/public"
          , expiry := ((parseArgs ["a", "cat"]).expire_time).getD "None" } := by
  have h := c3_preview_download_failure_nonfatal goodEnv ["a", "cat"]
    downloadFailWorld none "QUJD" [] "https://imagedelivery.net/acct/id/public"
    "404 Not Found" (by decide) (by decide) (by decide) (by decide) rfl rfl rfl
  exact h

/-- Counterexample to C2 as stated: a successful run with no `--expire`
option appends an entry whose expiry field is the string "None"
(cf.py line 176: `expire_time or "None"`), which is not one of the
spec's sentinels "none", "24h", "30d". -/
theorem c2_expiry_sentinel_counterexample :
    ((cfMain goodEnv ["a", "cat"] okWorld none).hist.getD []).map
        HistoryEntry.expiry = ["None"] ∧
      "None" ∉ (["none", "24h", "30d"] : List String) := by
  exact ⟨rfl, by decide⟩

/-- C2 (amended): every entry a run appends is well-formed with the
sentinel capitalised — its expiry is one of "None", "24h", "30d"
("None" when no `--expire` was given), its date is the
`%Y-%m-%d %H:%M:%S` rendering of the current time, and the resulting
file state is again a well-formed array (the old array plus the one
new entry). -/
theorem c2_recorded_entry_wellformed {β : Type} (env : Env)
    (argv : List String) (w : RunWorld β) (hist0 : Option (List HistoryEntry))
    (b64 : String) (rest : List String) (url : String)
    (hc : credsOk env = true)
    (hh : "--history" ∉ argv)
    (hp : "--help" ∉ argv)
    (ha : (parseArgs argv).args ≠ [])
    (hg : w.genResp = Except.ok (b64 :: rest))
    (hu : w.uploadResp (w.b64decode b64) = Except.ok url)
    (hnf : ∀ m, previewStep w url ≠ Except.error (PrevErr.otherExc m)) :
    (cfMain env argv w hist0).hist =
        appendHistory hist0
          { date := strftimeYmdHMS w.now
          , prompt := promptOf (parseArgs argv)
          , url := url
          , expiry := ((parseArgs argv).expire_time).getD "None" } ∧
      ((parseArgs argv).expire_time).getD "None" ∈
        (["None", "24h", "30d"] : List String) := by
  have hrec : cfMain env argv w hist0 =
      recordOutcome w argv hist0 url (w.b64decode b64) := by
    cases hPrev : previewStep w url with
    | ok u => simp [cfMain, hc, hh, hp, ha, hg, hu, hPrev]
    | error pe =>
      cases pe with
      | reqExc m => simp [cfMain, hc, hh, hp, ha, hg, hu, hPrev]
      | otherExc m => exact absurd hPrev (hnf m)
  constructor
  · rw [hrec]
    rfl
  · rcases removeOptions_expire_cases argv none with h | h | h <;>
      simp [parseArgs, h]

/-- Witness for C2 (amended): a concrete fully successful run appends
exactly its one well-formed entry to the absent history file. -/
theorem c2_recorded_entry_wellformed_witness :
    (cfMain goodEnv ["a", "cat"] okWorld none).hist =
        appendHistory none
          { date := strftimeYmdHMS okWorld.now
          , prompt := promptOf (parseArgs ["a", "cat"])
          , url := "https://imagedelivery.net/acct/id/public"
          , expiry := ((parseArgs ["a", "cat"]).expire_time).getD "None" } ∧
      ((parseArgs ["a", "cat"]).expire_time).getD "None" ∈
        (["None", "24h", "30d"] : List String) := by
  have h := c2_recorded_entry_wellformed goodEnv ["a", "cat"] okWorld none
    "QUJD" [] "https://imagedelivery.net/acct/id/public" (by decide) (by decide)
    (by decide) (by decide) rfl rfl
    (by intro m hm; simp [previewStep, okWorld] at hm)
  exact h

/-- Counterexample to C7 as stated: when the generation response
carries two images, only the first is decoded and carried forward to
the upload — cf.py line 108 reads `["data"][0]["b64_json"]` — so the
uploaded blobs are not all decoded images in the order received. -/
theorem c7_second_image_dropped :
    (cfMain goodEnv ["a", "cat"] twoImagesWorld none).uploaded =
        ["dec:AAAA"] ∧
      (cfMain goodEnv ["a", "cat"] twoImagesWorld none).uploaded ≠
        (["AAAA", "BBBB"].map twoImagesWorld.b64decode) := by
  exact ⟨rfl, by decide⟩

/-- C7 (amended): on a successful generation response the run decodes
exactly the first element of the returned image list and carries that
single decoded image forward to the upload; with the requested count of
1 the response has one element, so this is every element in order. -/
theorem c7_first_image_decoded {β : Type} (env : Env) (argv : List String)
    (w : RunWorld β) (hist0 : Option (List HistoryEntry))
    (b64 : String) (rest : List String)
    (hc : credsOk env = true)
    (hh : "--history" ∉ argv)
    (hp : "--help" ∉ argv)
    (ha : (parseArgs argv).args ≠ [])
    (hg : w.genResp = Except.ok (b64 :: rest)) :
    (cfMain env argv w hist0).uploaded = [w.b64decode b64] := by
  cases hup : w.uploadResp (w.b64decode b64) with
  | error e => simp [cfMain, hc, hh, hp, ha, hg, hup]
  | ok url =>
    cases hPrev : previewStep w url with
    | ok u => simp [cfMain, hc, hh, hp, ha, hg, hup, hPrev, recordOutcome]
    | error pe =>
      cases pe with
      | reqExc m => simp [cfMain, hc, hh, hp, ha, hg, hup, hPrev, recordOutcome]
      | otherExc m => simp [cfMain, hc, hh, hp, ha, hg, hup, hPrev]

/-- Witness for C7 (amended): a concrete successful run uploads exactly
the decoded first image of its singleton response. -/
theorem c7_first_image_decoded_witness :
    (cfMain goodEnv ["a", "cat"] okWorld none).uploaded = ["dec:QUJD"] := by
  have h := c7_first_image_decoded goodEnv ["a", "cat"] okWorld none "QUJD" []
    (by decide) (by decide) (by decide) (by decide) rfl
  exact h
